import Mathlib

/-!
# PowerMonitor: a shallow embedding of the sampling harness

The repository is a thin adapter around the Intel Power Gadget energy library
(`EnergyLib64.dll` / `EnergyLib32.dll`): `PowerMonitor.cpp` resolves the library's
entry points and forwards calls to them, `main.cpp` drives a polling loop.

Modelling conventions.

* The vendor library is external code.  It is modelled as an arbitrary state
  machine over a state type `σ`: every entry point is a function from the current
  library state to its results (return value and out-parameters) and the next
  state.  An entry point the library does not export is `none`, so a C function
  pointer is an `Option` of such a function and `nullptr` is `none`.
* `double` values are exact rationals (`ℚ`); the value of a division by zero,
  which is not a rational, is `none`.
* `int` values are integers (`Int`).  The only arithmetic on them is the increment
  of a loop counter that runs from 0 up to its bound, which cannot overflow.
* `World` threads the library state, the chronological log of the calls made
  through the function pointers, and the lines written to the console.
* `Sleep(delayInterval)` changes none of these and is left out of the state.
-/

/-! ## Constants -/

/-- PowerMonitor.cpp:16, frequency of sample in MHz. -/
def MSR_FUNC_FREQ : Int := 0
/-- PowerMonitor.cpp:17, average power in Watts, cumulative energy in Joules and in mWh. -/
def MSR_FUNC_POWER : Int := 1
/-- PowerMonitor.cpp:18, temperature in degrees Celsius. -/
def MSR_FUNC_TEMP : Int := 2
/-- PowerMonitor.cpp:19, package power limit in Watts. -/
def MSR_FUNC_MAX_POWER : Int := 3

/-- main.cpp:21, milliseconds passed to `Sleep`. -/
def delayInterval : Int := 1000

/-! ## Rounding -/

/-- The C library function `round` on an exact rational: the nearest integer, halfway
cases rounded away from zero. -/
def roundHalfAway (x : ℚ) : Int :=
  if 0 ≤ x then ⌊x + 1 / 2⌋ else ⌈x - 1 / 2⌉

/-- PowerMonitor.cpp:83, 84, 121, 122: `round(x * 10000) / 10000`. -/
def round4 (x : ℚ) : ℚ :=
  (roundHalfAway (x * 10000) : ℚ) / 10000

/-! ## The vendor library and the world -/

/-- One call made through a resolved entry point, with its in-parameters. -/
inductive Call where
  | IntelEnergyLibInitialize
  | GetNumMsrs
  | GetMsrName (iMsr : Int)
  | GetMsrFunc (iMsr : Int)
  | GetPowerData (iNode : Int) (iMsr : Int)
  | ReadSample
  | GetMaxTemperature (iNode : Int)
  deriving DecidableEq, Repr

/-- The loaded module (what an `HMODULE` stands for).  Each field is what
`GetProcAddress` returns for the name: `none` when the library does not export it.
Results are `(return value, out-parameter)`; `GetPowerData` yields the list of doubles it
writes to `pResult`, whose length is what it writes to `nResult`. -/
structure EnergyLib (σ : Type) where
  IntelEnergyLibInitialize : Option (σ → Int × σ)
  GetNumMsrs : Option (σ → (Int × Int) × σ)
  GetMsrName : Option (Int → σ → (Int × String) × σ)
  GetMsrFunc : Option (Int → σ → (Int × Int) × σ)
  GetPowerData : Option (Int → Int → σ → (Int × List ℚ) × σ)
  ReadSample : Option (σ → Int × σ)
  GetMaxTemperature : Option (Int → σ → (Int × Int) × σ)

/-- A line written to the console. -/
inductive Line where
  | text (s : String)
  /-- main.cpp:36, `"Average power consumption in Watts: " << averageWatts`. -/
  | average (averageWatts : Option ℚ)
  /-- main.cpp:94, `"Number of samples is: " << n`. -/
  | samples (n : Int)
  /-- PowerMonitor.cpp:117. -/
  | freq (name : String) (mhz : ℚ)
  /-- PowerMonitor.cpp:123. -/
  | powerW (name : String) (w : ℚ)
  /-- PowerMonitor.cpp:124. -/
  | energyJ (name : String) (j : ℚ)
  /-- PowerMonitor.cpp:125. -/
  | energyMWh (name : String) (m : ℚ)
  /-- PowerMonitor.cpp:129. -/
  | temp (name : String) (c : ℚ) (max : ℚ)
  deriving DecidableEq

/-- The state outside the program's variables. -/
structure World (σ : Type) where
  /-- The state of the vendor library. -/
  st : σ
  /-- The calls made through entry points so far, oldest first. -/
  calls : List Call
  /-- The console lines written so far, oldest first. -/
  out : List Line

/-- A call through a resolved entry point: run it on the library state, log it. -/
def World.invoke {σ α : Type} (w : World σ) (c : Call) (f : σ → α × σ) : α × World σ :=
  ((f w.st).1, { w with st := (f w.st).2, calls := w.calls ++ [c] })

/-- A line written to the console. -/
def World.print {σ : Type} (w : World σ) (l : Line) : World σ :=
  { w with out := w.out ++ [l] }

/-- What the process finds around it. -/
structure Env (σ : Type) where
  /-- PowerMonitor.cpp:27, `_M_X64`. -/
  M_X64 : Bool
  /-- PowerMonitor.cpp:33, `_wgetenv(L"IPG_Dir")`. -/
  IPG_Dir : Option String
  /-- PowerMonitor.cpp:36, `LoadLibrary` on a path. -/
  LoadLibrary : String → Option (EnergyLib σ)
  /-- main.cpp:46, whether the csv file opens in append mode. -/
  csvOpens : Bool

/-! ## PowerMonitor.h / PowerMonitor.cpp -/

/-- PowerMonitor.h:46-53, the private fields with their default initialisers. -/
structure PowerMonitor (σ : Type) where
  energyLib : Option (EnergyLib σ) := none
  IntelEnergyLibInitialize : Option (σ → Int × σ) := none
  GetNumMsrs : Option (σ → (Int × Int) × σ) := none
  GetMsrName : Option (Int → σ → (Int × String) × σ) := none
  GetMsrFunc : Option (Int → σ → (Int × Int) × σ) := none
  GetPowerData : Option (Int → Int → σ → (Int × List ℚ) × σ) := none
  ReadSample : Option (σ → Int × σ) := none
  maxTemperature_ : Int := 0

/-- PowerMonitor.h:42. -/
def PowerMonitor.IsInitialized {σ : Type} (pm : PowerMonitor σ) : Bool :=
  pm.energyLib.isSome

/-- PowerMonitor.cpp:143-151. -/
def PowerMonitor.ClearEnergyLibFunctionPointers {σ : Type} (pm : PowerMonitor σ) :
    PowerMonitor σ :=
  { pm with
    IntelEnergyLibInitialize := none
    GetNumMsrs := none
    GetMsrName := none
    GetMsrFunc := none
    GetPowerData := none
    ReadSample := none }

/-- PowerMonitor.cpp:27-37, the search for the library: the value of `energyLib` when line 38
is reached. -/
def loadEnergyLib {σ : Type} (env : Env σ) : Option (EnergyLib σ) :=
  let dllName := if env.M_X64 then "\\EnergyLib64.dll" else "\\EnergyLib32.dll"
  match env.IPG_Dir with
  | some powerGadgetDir => env.LoadLibrary (powerGadgetDir ++ dllName)
  | none => none

/-- PowerMonitor.cpp:24-58, the constructor `PowerMonitor::PowerMonitor()`. -/
def PowerMonitor.new {σ : Type} (env : Env σ) (w : World σ) : PowerMonitor σ × World σ :=
  match loadEnergyLib env with
  | none => ({}, w)
  | some lib =>
    let pm : PowerMonitor σ :=
      { energyLib := some lib
        IntelEnergyLibInitialize := lib.IntelEnergyLibInitialize
        GetNumMsrs := lib.GetNumMsrs
        GetMsrName := lib.GetMsrName
        GetMsrFunc := lib.GetMsrFunc
        GetPowerData := lib.GetPowerData
        ReadSample := lib.ReadSample }
    match lib.IntelEnergyLibInitialize, lib.ReadSample with
    | some init, some readSample =>
      let r := w.invoke Call.IntelEnergyLibInitialize init
      if r.1 ≠ 0 then
        match lib.GetMaxTemperature with
        | some getMaxTemperature =>
          let t := r.2.invoke (Call.GetMaxTemperature 0) (getMaxTemperature 0)
          ({ pm with maxTemperature_ := t.1.2 }, (t.2.invoke Call.ReadSample readSample).2)
        | none => (pm, (r.2.invoke Call.ReadSample readSample).2)
      else
        (pm.ClearEnergyLibFunctionPointers, r.2)
    | _, _ => (pm, w)

/-- PowerMonitor.cpp:79-80 and 113-114: `double data[3] = {}` after `GetPowerData` wrote its
results over it. -/
def fillData (results : List ℚ) : ℚ × ℚ × ℚ :=
  (results.getD 0 0, results.getD 1 0, results.getD 2 0)

/-- PowerMonitor.cpp:65-91, `PowerMonitor::SamplePowerState(double& watts)`.  The first
component is the caller's `watts` when the function returns. -/
def PowerMonitor.SamplePowerState {σ : Type} (pm : PowerMonitor σ) (watts : ℚ) (w : World σ) :
    ℚ × World σ :=
  match pm.IntelEnergyLibInitialize, pm.GetNumMsrs, pm.GetMsrName, pm.GetMsrFunc,
    pm.GetPowerData, pm.ReadSample with
  | some _, some _, some getMsrName, some getMsrFunc, some getPowerData, some readSample =>
    let w1 := (w.invoke Call.ReadSample readSample).2
    let func := w1.invoke (Call.GetMsrFunc MSR_FUNC_POWER) (getMsrFunc MSR_FUNC_POWER)
    let name := func.2.invoke (Call.GetMsrName MSR_FUNC_POWER) (getMsrName MSR_FUNC_POWER)
    let got := name.2.invoke (Call.GetPowerData 0 MSR_FUNC_POWER) (getPowerData 0 MSR_FUNC_POWER)
    let data := fillData got.1.2
    let data := (round4 data.1, data.2.1, round4 data.2.2)
    (data.1, got.2)
  | _, _, _, _, _, _ => (watts, w)

/-- PowerMonitor.cpp:107-136, the body of the loop of `PowerMonitor::SamplePowerState()` at
index `i`. -/
def PowerMonitor.printMsr {σ : Type} (pm : PowerMonitor σ)
    (getMsrName : Int → σ → (Int × String) × σ) (getMsrFunc : Int → σ → (Int × Int) × σ)
    (getPowerData : Int → Int → σ → (Int × List ℚ) × σ) (i : Int) (w : World σ) : World σ :=
  let func := w.invoke (Call.GetMsrFunc i) (getMsrFunc i)
  let funcID := func.1.2
  let name := func.2.invoke (Call.GetMsrName i) (getMsrName i)
  let MSRName := name.1.2
  let got := name.2.invoke (Call.GetPowerData 0 i) (getPowerData 0 i)
  let data := fillData got.1.2
  if funcID = MSR_FUNC_FREQ then
    got.2.print (Line.freq MSRName data.1)
  else if funcID = MSR_FUNC_POWER then
    ((got.2.print (Line.powerW MSRName (round4 data.1))).print
      (Line.energyJ MSRName data.2.1)).print (Line.energyMWh MSRName (round4 data.2.2))
  else if funcID = MSR_FUNC_TEMP then
    got.2.print (Line.temp MSRName data.1 pm.maxTemperature_)
  else if funcID = MSR_FUNC_MAX_POWER then
    got.2
  else
    got.2

/-- PowerMonitor.cpp:106, `for (int i = 0; i < numMSRs; ++i)` with `k` iterations left. -/
def PowerMonitor.printLoop {σ : Type} (pm : PowerMonitor σ)
    (getMsrName : Int → σ → (Int × String) × σ) (getMsrFunc : Int → σ → (Int × Int) × σ)
    (getPowerData : Int → Int → σ → (Int × List ℚ) × σ) : Nat → Int → World σ → World σ
  | 0, _, w => w
  | k + 1, i, w =>
    PowerMonitor.printLoop pm getMsrName getMsrFunc getPowerData k (i + 1)
      (pm.printMsr getMsrName getMsrFunc getPowerData i w)

/-- PowerMonitor.cpp:96-138, `PowerMonitor::SamplePowerState()`, the overload without a
parameter. -/
def PowerMonitor.SamplePowerStateAll {σ : Type} (pm : PowerMonitor σ) (w : World σ) : World σ :=
  match pm.IntelEnergyLibInitialize, pm.GetNumMsrs, pm.GetMsrName, pm.GetMsrFunc,
    pm.GetPowerData, pm.ReadSample with
  | some _, some getNumMsrs, some getMsrName, some getMsrFunc, some getPowerData,
      some readSample =>
    let num := w.invoke Call.GetNumMsrs getNumMsrs
    let numMSRs := num.1.2
    let w1 := (num.2.invoke Call.ReadSample readSample).2
    pm.printLoop getMsrName getMsrFunc getPowerData numMSRs.toNat 0 w1
  | _, _, _, _, _, _ => w

/-! ## main.cpp -/

/-- A `double` divided by an `int`: no rational value when the divisor is zero. -/
def divByInt (x : ℚ) (n : Int) : Option ℚ :=
  if n = 0 then none else some (x / n)

/-- main.cpp:29-34, `for (int i = 0; i < n; i++)` with `k` iterations left: the values of `i`
and `averageWatts` and the world when the loop is left. -/
def SamplePowerState_loop {σ : Type} (pm : PowerMonitor σ) :
    Nat → Int → ℚ → World σ → Int × ℚ × World σ
  | 0, i, averageWatts, w => (i, averageWatts, w)
  | k + 1, i, averageWatts, w =>
    let sampled := pm.SamplePowerState 0 w
    SamplePowerState_loop pm k (i + 1) (averageWatts + sampled.1) sampled.2

/-- What `SamplePowerState(int, PowerMonitor&)` leaves behind. -/
structure Sampled (σ : Type) where
  /-- The loop counter `i` when the loop is left: the number of samples added up. -/
  count : Int
  /-- The value of `averageWatts` written to the console at main.cpp:36. -/
  averageWatts : Option ℚ
  world : World σ

/-- main.cpp:26-37, `SamplePowerState(int n, PowerMonitor& pMonitor)`. -/
def SamplePowerState {σ : Type} (n : Int) (pMonitor : PowerMonitor σ) (w : World σ) :
    Sampled σ :=
  let looped := SamplePowerState_loop pMonitor n.toNat 0 0 w
  let averageWatts := divByInt looped.2.1 n
  { count := looped.1
    averageWatts := averageWatts
    world := looped.2.2.print (Line.average averageWatts) }

/-- main.cpp:42-63, `RecordPowerState`: returns when the file does not open; the endless
loop of lines 52-61 never returns, which is `none`. -/
def RecordPowerState {σ : Type} (env : Env σ) (_pMonitor : PowerMonitor σ) (w : World σ) :
    Option (World σ) :=
  if env.csvOpens then none else some (w.print (Line.text "Error opening file."))

/-- main.cpp:89-93, the loop `while (n < 1)` over the integers still to be read from the
console.  When the input ends, `cin >> n` leaves `n` below 1 for ever: `none`. -/
def sampleSizeLoop {σ : Type} : List Int → Int → World σ → Option (Int × World σ)
  | [], n, w => if n < 1 then none else some (n, w)
  | x :: rest, n, w =>
    if n < 1 then
      sampleSizeLoop rest x
        ((w.print (Line.text "Error: sample size must be 1 or more.")).print
          (Line.text "Please choose a sample size."))
    else some (n, w)

/-- `cin >> x` on the integers still to be read: the value of `x` afterwards and the rest of
the input.  At the end of the input both variables read in `_tmain` are 0. -/
def cinInt : List Int → Int × List Int
  | [] => (0, [])
  | x :: rest => (x, rest)

/-- main.cpp:68-108, `_tmain`: the exit code and the world, `none` when it never returns.
`input` is the sequence of integers read from the console. -/
def _tmain {σ : Type} (env : Env σ) (input : List Int) (w : World σ) : Option (Int × World σ) :=
  let made := PowerMonitor.new env w
  let pMonitor := made.1
  if !pMonitor.IsInitialized then
    some (-1, made.2.print (Line.text
      "Error: Intel Power Gadget library not found. Make sure it is installed and the program is running in the correct architecture."))
  else
    let w1 := (((made.2.print (Line.text "Welcome to the CPU Power Monitor.")).print
      (Line.text "Press '1' to choose the CPU Power Sampler.")).print
      (Line.text "Press '2' to choose the CPU Power Recorder.")).print
      (Line.text "Press anything else to quit.")
    let choice := cinInt input
    if choice.1 = 1 then
      let w2 := (w1.print (Line.text "Welcome to the CPU Power Sampler.")).print
        (Line.text "Please choose a sample size.")
      let n := cinInt choice.2
      match sampleSizeLoop n.2 n.1 w2 with
      | none => none
      | some (n, w3) =>
        let w4 := (w3.print (Line.samples n)).print (Line.text "Sampling now...")
        some (0, (SamplePowerState n pMonitor w4).world)
    else if choice.1 = 2 then
      let w2 := ((w1.print (Line.text "Welcome to the CPU Power Recorder.")).print
        (Line.text "Press Ctrl + C to stop recording.")).print (Line.text "Recording now...")
      match RecordPowerState env pMonitor w2 with
      | none => none
      | some w3 => some (0, w3)
    else
      some (0, w1.print (Line.text "You chose to quit. Goodbye."))

/-! ## Vocabulary of the statements -/

/-- All six stored entry points are resolved: the condition under which the check of
PowerMonitor.cpp:67 and 98 lets a sample through. -/
def PowerMonitor.allResolved {σ : Type} (pm : PowerMonitor σ) : Bool :=
  pm.IntelEnergyLibInitialize.isSome && pm.GetNumMsrs.isSome && pm.GetMsrName.isSome &&
    pm.GetMsrFunc.isSome && pm.GetPowerData.isSome && pm.ReadSample.isSome

/-- All six stored entry points are null. -/
def PowerMonitor.allNull {σ : Type} (pm : PowerMonitor σ) : Bool :=
  pm.IntelEnergyLibInitialize.isNone && pm.GetNumMsrs.isNone && pm.GetMsrName.isNone &&
    pm.GetMsrFunc.isNone && pm.GetPowerData.isNone && pm.ReadSample.isNone

/-- The values of `watts` after each of `k` successive calls of
`pMonitor.SamplePowerState(watts)`, every call entered with `watts = 0` as at main.cpp:30-31,
oldest first. -/
def sampledWatts {σ : Type} (pm : PowerMonitor σ) : Nat → World σ → List ℚ
  | 0, _ => []
  | k + 1, w => (pm.SamplePowerState 0 w).1 :: sampledWatts pm k (pm.SamplePowerState 0 w).2

/-- The initialisation of PowerMonitor.cpp:35-47 was attempted and did not succeed: the
library was not located, or it was loaded and `IntelEnergyLibInitialize`, called at line 47,
returned 0. -/
def initFailed {σ : Type} (env : Env σ) (w : World σ) : Bool :=
  match loadEnergyLib env with
  | none => true
  | some lib =>
    match lib.IntelEnergyLibInitialize, lib.ReadSample with
    | some init, some _ => decide ((init w.st).1 = 0)
    | _, _ => false

/-! ## Concrete libraries

The state of these libraries is the number of `ReadSample` calls they have served. -/

/-- A library that exports every entry point.  `IntelEnergyLibInitialize` returns `started`,
metric `i` has kind `kind i`, and after `s` refreshes metric `i` reads `reading s i`. -/
def fullLib (started : Int) (kind : Int → Int) (reading : Nat → Int → List ℚ) : EnergyLib Nat where
  IntelEnergyLibInitialize := some fun s => (started, s)
  GetNumMsrs := some fun s => ((1, 2), s)
  GetMsrName := some fun iMsr s => ((1, if iMsr = 0 then "Processor" else "Package"), s)
  GetMsrFunc := some fun iMsr s => ((1, kind iMsr), s)
  GetPowerData := some fun _ iMsr s => ((1, reading s iMsr), s)
  ReadSample := some fun s => (1, s + 1)
  GetMaxTemperature := some fun _ s => ((1, 100), s)

/-- An installation in which `lib` is what loading the library yields. -/
def installed (lib : Option (EnergyLib Nat)) : Env Nat where
  M_X64 := true
  IPG_Dir := some "C:\\Program Files\\Intel\\Power Gadget"
  LoadLibrary := fun _ => lib
  csvOpens := true

/-- A process start: the library has served nothing, nothing is logged or printed. -/
def start : World Nat := { st := 0, calls := [], out := [] }

/-- Metric 1 is the Power metric and reads 10, 20, 30, ... watts on the samples that follow
the constructor's. -/
def rampLib : EnergyLib Nat :=
  fullLib 1 (fun i => if i = 1 then MSR_FUNC_POWER else MSR_FUNC_FREQ)
    (fun s _ => [10 * ((s : ℚ) - 1), 0, 0])

/-- Metric 1 is the Power metric and always reads 12.34567 W. -/
def noisyLib : EnergyLib Nat :=
  fullLib 1 (fun i => if i = 1 then MSR_FUNC_POWER else MSR_FUNC_FREQ)
    (fun _ _ => [1234567 / 100000, 5, 7])

/-- The library's start-up handshake fails: `IntelEnergyLibInitialize` returns 0. -/
def refusingLib : EnergyLib Nat :=
  fullLib 0 (fun i => if i = 1 then MSR_FUNC_POWER else MSR_FUNC_FREQ) (fun _ _ => [15, 0, 0])

/-- A library that lacks `GetMsrName` and exports the rest. -/
def oldLib : EnergyLib Nat :=
  { rampLib with GetMsrName := none }

/-- Metric 0 is the Power metric (15.5 W) and metric 1 the Temperature metric (60 degrees). -/
def shiftedLib : EnergyLib Nat :=
  fullLib 1 (fun i => if i = 0 then MSR_FUNC_POWER else MSR_FUNC_TEMP)
    (fun _ i => if i = 0 then [31 / 2, 0, 0] else [60])

/-- Metric 1 reads 0 W. -/
def idleLib : EnergyLib Nat :=
  fullLib 1 (fun i => if i = 1 then MSR_FUNC_POWER else MSR_FUNC_FREQ) (fun _ _ => [0, 0, 0])

/-! ## Rounding -/

theorem roundHalfAway_intCast (k : Int) : roundHalfAway (k : ℚ) = k := by
  unfold roundHalfAway
  split
  · rw [Int.floor_eq_iff]
    constructor <;> norm_num
  · rw [Int.ceil_eq_iff]
    constructor <;> norm_num

theorem round4_noisy : round4 (1234567 / 100000) = 123457 / 10000 := by
  have h : roundHalfAway (1234567 / 100000 * 10000) = 123457 := by
    unfold roundHalfAway
    rw [if_pos (by norm_num), Int.floor_eq_iff]
    constructor <;> norm_num
  unfold round4
  rw [h]
  norm_num

theorem round4_intCast (k : Int) : round4 (k : ℚ) = k := by
  unfold round4
  have h : (k : ℚ) * 10000 = ((k * 10000 : Int) : ℚ) := by push_cast; ring
  rw [h, roundHalfAway_intCast]
  push_cast
  field_simp

/-! ## One sample -/

theorem sample_resolved {σ : Type} (pm : PowerMonitor σ) (watts : ℚ) (w : World σ)
    (fInit : σ → Int × σ) (fNum : σ → (Int × Int) × σ)
    (fName : Int → σ → (Int × String) × σ) (fFunc : Int → σ → (Int × Int) × σ)
    (fData : Int → Int → σ → (Int × List ℚ) × σ) (fRead : σ → Int × σ)
    (hInit : pm.IntelEnergyLibInitialize = some fInit) (hNum : pm.GetNumMsrs = some fNum)
    (hName : pm.GetMsrName = some fName) (hFunc : pm.GetMsrFunc = some fFunc)
    (hData : pm.GetPowerData = some fData) (hRead : pm.ReadSample = some fRead) :
    pm.SamplePowerState watts w =
      (round4 ((fData 0 MSR_FUNC_POWER
          (fName MSR_FUNC_POWER (fFunc MSR_FUNC_POWER (fRead w.st).2).2).2).1.2.getD 0 0),
        { st := (fData 0 MSR_FUNC_POWER
            (fName MSR_FUNC_POWER (fFunc MSR_FUNC_POWER (fRead w.st).2).2).2).2
          calls := w.calls ++ [Call.ReadSample, Call.GetMsrFunc MSR_FUNC_POWER,
            Call.GetMsrName MSR_FUNC_POWER, Call.GetPowerData 0 MSR_FUNC_POWER]
          out := w.out }) := by
  simp [PowerMonitor.SamplePowerState, hInit, hNum, hName, hFunc, hData, hRead, World.invoke,
    fillData]

theorem sample_unresolved {σ : Type} (pm : PowerMonitor σ) (watts : ℚ) (w : World σ)
    (h : pm.allResolved = false) : pm.SamplePowerState watts w = (watts, w) := by
  unfold PowerMonitor.SamplePowerState
  split
  · rename_i h1 h2 h3 h4 h5 h6
    simp [PowerMonitor.allResolved, h1, h2, h3, h4, h5, h6] at h
  · rfl

theorem sample_calls {σ : Type} (pm : PowerMonitor σ) (watts : ℚ) (w : World σ)
    (h : pm.allResolved = true) :
    (pm.SamplePowerState watts w).2.calls =
        w.calls ++ [Call.ReadSample, Call.GetMsrFunc MSR_FUNC_POWER,
          Call.GetMsrName MSR_FUNC_POWER, Call.GetPowerData 0 MSR_FUNC_POWER] ∧
      (pm.SamplePowerState watts w).2.out = w.out := by
  simp only [PowerMonitor.allResolved, Bool.and_eq_true, Option.isSome_iff_exists] at h
  obtain ⟨⟨⟨⟨⟨⟨fInit, hInit⟩, fNum, hNum⟩, fName, hName⟩, fFunc, hFunc⟩, fData, hData⟩,
    fRead, hRead⟩ := h
  rw [sample_resolved pm watts w _ _ _ _ _ _ hInit hNum hName hFunc hData hRead]
  exact ⟨rfl, rfl⟩

theorem sample_refreshes_once {σ : Type} (pm : PowerMonitor σ) (watts : ℚ) (w : World σ)
    (h : pm.allResolved = true) :
    (pm.SamplePowerState watts w).2.calls.count Call.ReadSample =
      w.calls.count Call.ReadSample + 1 := by
  rw [(sample_calls pm watts w h).1, List.count_append]
  rfl

theorem sample_reads_once {σ : Type} (pm : PowerMonitor σ) (watts : ℚ) (w : World σ)
    (h : pm.allResolved = true) :
    (pm.SamplePowerState watts w).2.calls.count (Call.GetPowerData 0 MSR_FUNC_POWER) =
      w.calls.count (Call.GetPowerData 0 MSR_FUNC_POWER) + 1 := by
  rw [(sample_calls pm watts w h).1, List.count_append]
  rfl

/-! ## The sampling loop -/

theorem loop_counter {σ : Type} (pm : PowerMonitor σ) (k : Nat) (i : Int) (a : ℚ)
    (w : World σ) : (SamplePowerState_loop pm k i a w).1 = i + k := by
  induction k generalizing i a w with
  | zero => simp [SamplePowerState_loop]
  | succ k ih =>
    simp only [SamplePowerState_loop, ih]
    push_cast
    ring

theorem loop_sum {σ : Type} (pm : PowerMonitor σ) (k : Nat) (i : Int) (a : ℚ)
    (w : World σ) :
    (SamplePowerState_loop pm k i a w).2.1 = a + (sampledWatts pm k w).sum := by
  induction k generalizing i a w with
  | zero => simp [SamplePowerState_loop, sampledWatts]
  | succ k ih =>
    simp only [SamplePowerState_loop, sampledWatts, ih, List.sum_cons]
    ring

theorem loop_unresolved {σ : Type} (pm : PowerMonitor σ) (h : pm.allResolved = false)
    (k : Nat) (i : Int) (a : ℚ) (w : World σ) :
    SamplePowerState_loop pm k i a w = (i + k, a, w) := by
  induction k generalizing i a w with
  | zero => simp [SamplePowerState_loop]
  | succ k ih =>
    simp only [SamplePowerState_loop, sample_unresolved pm 0 w h, ih, add_zero]
    push_cast
    rw [add_assoc, add_comm (1 : Int)]

theorem loop_refreshes {σ : Type} (pm : PowerMonitor σ) (h : pm.allResolved = true)
    (k : Nat) (i : Int) (a : ℚ) (w : World σ) :
    (SamplePowerState_loop pm k i a w).2.2.calls.count Call.ReadSample =
      w.calls.count Call.ReadSample + k := by
  induction k generalizing i a w with
  | zero => simp [SamplePowerState_loop]
  | succ k ih =>
    simp only [SamplePowerState_loop, ih, sample_refreshes_once pm 0 w h]
    omega

theorem loop_reads {σ : Type} (pm : PowerMonitor σ) (h : pm.allResolved = true)
    (k : Nat) (i : Int) (a : ℚ) (w : World σ) :
    (SamplePowerState_loop pm k i a w).2.2.calls.count (Call.GetPowerData 0 MSR_FUNC_POWER) =
      w.calls.count (Call.GetPowerData 0 MSR_FUNC_POWER) + k := by
  induction k generalizing i a w with
  | zero => simp [SamplePowerState_loop]
  | succ k ih =>
    simp only [SamplePowerState_loop, ih, sample_reads_once pm 0 w h]
    omega

theorem sampledWatts_length {σ : Type} (pm : PowerMonitor σ) (k : Nat) (w : World σ) :
    (sampledWatts pm k w).length = k := by
  induction k generalizing w with
  | zero => rfl
  | succ k ih => simp [sampledWatts, ih]

theorem sample_out {σ : Type} (pm : PowerMonitor σ) (watts : ℚ) (w : World σ) :
    (pm.SamplePowerState watts w).2.out = w.out := by
  unfold PowerMonitor.SamplePowerState
  split <;> rfl

theorem loop_out {σ : Type} (pm : PowerMonitor σ) (k : Nat) (i : Int) (a : ℚ)
    (w : World σ) : (SamplePowerState_loop pm k i a w).2.2.out = w.out := by
  induction k generalizing i a w with
  | zero => rfl
  | succ k ih => simp only [SamplePowerState_loop, ih, sample_out]

/-! ## Claims -/

/-- C1: for every `n ≥ 1` and every monitor with all six entry points resolved,
`SamplePowerState(n, monitor)` makes exactly `n` `ReadSample` calls, one in each call of
`PowerMonitor::SamplePowerState(watts)`, and folds exactly `n` samples into its result: the
loop counter is `n` when the loop is left, each of the `n` calls reads the power data once,
the values they hand back are `n` in number, and the average written is their sum over
`n`. -/
theorem SamplePowerState_refreshes_n_times {σ : Type} (n : Int) (pMonitor : PowerMonitor σ)
    (w : World σ) (hn : 1 ≤ n) (hready : pMonitor.allResolved = true) :
    ((SamplePowerState n pMonitor w).world.calls.count Call.ReadSample : Int) =
        w.calls.count Call.ReadSample + n ∧
      (SamplePowerState n pMonitor w).count = n ∧
      (∀ (watts : ℚ) (w1 : World σ),
        (pMonitor.SamplePowerState watts w1).2.calls.count Call.ReadSample =
          w1.calls.count Call.ReadSample + 1) ∧
      ((SamplePowerState n pMonitor w).world.calls.count
          (Call.GetPowerData 0 MSR_FUNC_POWER) : Int) =
        w.calls.count (Call.GetPowerData 0 MSR_FUNC_POWER) + n ∧
      ((sampledWatts pMonitor n.toNat w).length : Int) = n ∧
      (SamplePowerState n pMonitor w).averageWatts =
        some ((sampledWatts pMonitor n.toNat w).sum / n) ∧
      (SamplePowerState n pMonitor w).world.out =
        w.out ++ [Line.average (some ((sampledWatts pMonitor n.toNat w).sum / n))] := by
  have ht : ((n.toNat : Nat) : Int) = n := Int.toNat_of_nonneg (by omega)
  have havg : divByInt (0 + (sampledWatts pMonitor n.toNat w).sum) n =
      some ((sampledWatts pMonitor n.toNat w).sum / n) := by
    simp only [divByInt, zero_add]
    rw [if_neg (by omega)]
  refine ⟨?_, ?_, fun watts w1 => sample_refreshes_once pMonitor watts w1 hready, ?_, ?_,
    ?_, ?_⟩
  · simp only [SamplePowerState, World.print, loop_refreshes pMonitor hready]
    push_cast
    rw [ht]
  · simp only [SamplePowerState, loop_counter, ht, zero_add]
  · simp only [SamplePowerState, World.print, loop_reads pMonitor hready]
    push_cast
    rw [ht]
  · rw [sampledWatts_length, ht]
  · simp only [SamplePowerState, loop_sum, havg]
  · simp only [SamplePowerState, World.print, loop_sum, havg, loop_out]

/-- Over `rampLib` a sample hands back ten times the number of refreshes served before it. -/
theorem ramp_sample (watts : ℚ) (w : World Nat) :
    (PowerMonitor.new (installed (some rampLib)) start).1.SamplePowerState watts w =
      (10 * (w.st : ℚ),
        { st := w.st + 1
          calls := w.calls ++ [Call.ReadSample, Call.GetMsrFunc MSR_FUNC_POWER,
            Call.GetMsrName MSR_FUNC_POWER, Call.GetPowerData 0 MSR_FUNC_POWER]
          out := w.out }) := by
  rw [sample_resolved _ watts w (fun s => (1, s)) (fun s => ((1, 2), s))
    (fun iMsr s => ((1, if iMsr = 0 then "Processor" else "Package"), s))
    (fun iMsr s => ((1, if iMsr = 1 then MSR_FUNC_POWER else MSR_FUNC_FREQ), s))
    (fun _ _ s => ((1, [10 * ((s : ℚ) - 1), 0, 0]), s)) (fun s => (1, s + 1))
    rfl rfl rfl rfl rfl rfl]
  have h : (10 * (((w.st + 1 : Nat) : ℚ) - 1)) = ((10 * w.st : Int) : ℚ) := by
    push_cast
    ring
  simp only [List.getD_cons_zero, h, round4_intCast]
  push_cast
  rfl

theorem ramp_sampledWatts :
    sampledWatts (PowerMonitor.new (installed (some rampLib)) start).1 (Int.toNat 3)
      (PowerMonitor.new (installed (some rampLib)) start).2 = [10, 20, 30] := by
  have h3 : Int.toNat 3 = 3 := rfl
  have h1 : (PowerMonitor.new (installed (some rampLib)) start).2.st = 1 := rfl
  simp only [h3, sampledWatts, ramp_sample, h1]
  norm_num

/-- C1 at the monitor built over `rampLib` and `n = 3`: the constructor made one refresh, the
run adds three; three samples, 10, 20 and 30 W, are folded into the average 20. -/
theorem SamplePowerState_refreshes_n_times_witness :
    (1 : Int) ≤ 3 ∧ (PowerMonitor.new (installed (some rampLib)) start).1.allResolved = true ∧
      (((SamplePowerState 3 (PowerMonitor.new (installed (some rampLib)) start).1
        (PowerMonitor.new (installed (some rampLib)) start).2).world.calls.count
          Call.ReadSample : Nat) : Int) = (1 : Nat) + 3 ∧
      (SamplePowerState 3 (PowerMonitor.new (installed (some rampLib)) start).1
        (PowerMonitor.new (installed (some rampLib)) start).2).count = 3 ∧
      (SamplePowerState 3 (PowerMonitor.new (installed (some rampLib)) start).1
        (PowerMonitor.new (installed (some rampLib)) start).2).averageWatts = some 20 := by
  have h := SamplePowerState_refreshes_n_times 3
    (PowerMonitor.new (installed (some rampLib)) start).1
    (PowerMonitor.new (installed (some rampLib)) start).2 (by decide) rfl
  refine ⟨by decide, rfl, h.1, h.2.1, ?_⟩
  rw [h.2.2.2.2.2.1, ramp_sampledWatts]
  norm_num

/-- C2: for every `n ≥ 1`, when `ws` are the watts values the `n` successive calls of
`PowerMonitor::SamplePowerState(watts)` hand back, the average that `SamplePowerState(n,
monitor)` reports is `(w_1 + ... + w_n) / n`; the values 10, 20, 30 give 20. -/
theorem SamplePowerState_average {σ : Type} (n : Int) (pMonitor : PowerMonitor σ)
    (w : World σ) (ws : List ℚ) (hn : 1 ≤ n) (hws : sampledWatts pMonitor n.toNat w = ws) :
    (SamplePowerState n pMonitor w).averageWatts = some (ws.sum / n) ∧
      (SamplePowerState n pMonitor w).world.out =
        w.out ++ [Line.average (some (ws.sum / n))] ∧
      (ws.length : Int) = n ∧
      (ws = [10, 20, 30] → (SamplePowerState n pMonitor w).averageWatts = some 20) := by
  have hlen : (ws.length : Int) = n := by
    rw [← hws, sampledWatts_length, Int.toNat_of_nonneg (by omega)]
  have havg : (SamplePowerState n pMonitor w).averageWatts = some (ws.sum / n) := by
    simp only [SamplePowerState, divByInt, loop_sum, hws, zero_add]
    rw [if_neg (by omega)]
  refine ⟨havg, ?_, hlen, ?_⟩
  · have h := havg
    simp only [SamplePowerState] at h
    simp only [SamplePowerState, World.print, h, loop_out]
  · intro h
    subst h
    have h3 : n = 3 := by simpa using hlen.symm
    rw [havg, h3]
    norm_num

/-- C2 over `rampLib`, whose three samples after the constructor's read 10, 20 and 30 W. -/
theorem SamplePowerState_average_witness :
    (1 : Int) ≤ 3 ∧
      sampledWatts (PowerMonitor.new (installed (some rampLib)) start).1 (Int.toNat 3)
        (PowerMonitor.new (installed (some rampLib)) start).2 = [10, 20, 30] ∧
      (SamplePowerState 3 (PowerMonitor.new (installed (some rampLib)) start).1
        (PowerMonitor.new (installed (some rampLib)) start).2).averageWatts = some 20 :=
  ⟨by decide, ramp_sampledWatts,
    (SamplePowerState_average 3 _ _ [10, 20, 30] (by decide) ramp_sampledWatts).2.2.2 rfl⟩

theorem sampleSizeLoop_positive {σ : Type} (input : List Int) (n : Int) (w : World σ)
    (m : Int) (w1 : World σ) (h : sampleSizeLoop input n w = some (m, w1)) : 1 ≤ m := by
  induction input generalizing n w with
  | nil =>
    simp only [sampleSizeLoop] at h
    split at h
    · simp at h
    · simp only [Option.some.injEq, Prod.mk.injEq] at h
      omega
  | cons x rest ih =>
    simp only [sampleSizeLoop] at h
    split at h
    · exact ih _ _ h
    · simp only [Option.some.injEq, Prod.mk.injEq] at h
      omega

theorem tmain_sampler {σ : Type} (env : Env σ) (input : List Int) (w0 : World σ)
    (r : Int × World σ) (hr : _tmain env input w0 = some r)
    (hinit : (PowerMonitor.new env w0).1.IsInitialized = true) (hchoice : (cinInt input).1 = 1) :
    ∃ (m : Int) (w4 : World σ), 1 ≤ m ∧
      r = (0, (SamplePowerState m (PowerMonitor.new env w0).1 w4).world) := by
  simp only [_tmain, hinit, hchoice, Bool.not_true, Bool.false_eq_true, if_false,
    if_true] at hr
  split at hr
  · exact absurd hr (by simp)
  · rename_i m w3 hloop
    simp only [Option.some.injEq] at hr
    exact ⟨m, _, sampleSizeLoop_positive _ _ _ _ _ hloop, hr.symm⟩

theorem SamplePowerState_unresolved {σ : Type} (n : Int) (pm : PowerMonitor σ) (w : World σ)
    (hn : 1 ≤ n) (h : pm.allResolved = false) :
    (SamplePowerState n pm w).count = n ∧
      (SamplePowerState n pm w).averageWatts = some 0 ∧
      (SamplePowerState n pm w).world = w.print (Line.average (some 0)) := by
  have hd : divByInt 0 n = some 0 := by
    simp only [divByInt]
    rw [if_neg (by omega)]
    simp
  have ht : ((n.toNat : Nat) : Int) = n := Int.toNat_of_nonneg (by omega)
  simp only [SamplePowerState, loop_unresolved pm h, hd, zero_add, ht, and_self]

/-- C3, refuted as stated: `SamplePowerState(n, monitor)` has no check of `n`; called with
`n = -1` it writes an average to the console instead of rejecting the call. -/
theorem SamplePowerState_nonpositive_not_rejected :
    ¬ ∀ (n : Int) (pMonitor : PowerMonitor Nat) (w : World Nat), n ≤ 0 →
      (SamplePowerState n pMonitor w).world.out = w.out ∧
        (SamplePowerState n pMonitor w).world.calls = w.calls := by
  intro h
  have h1 := (h (-1) (PowerMonitor.new (installed (some rampLib)) start).1 start
    (by decide)).1
  exact absurd (congrArg List.length h1) (by decide)

/-- C3, amended: for every `n ≤ 0`, `SamplePowerState(n, monitor)` makes no provider call and
leaves the library as it was, but it does not reject the call: it writes the average `0 / n`
(no number when `n = 0`).  The rejection is the caller's: on such an `n` the loop of
main.cpp:89-93 prints an error and reads the next value, and whenever `_tmain` runs the
sampler it passes a sample size of 1 or more. -/
theorem SamplePowerState_nonpositive {σ : Type} (n : Int) (pMonitor : PowerMonitor σ)
    (w : World σ) (hn : n ≤ 0) :
    (SamplePowerState n pMonitor w).world.calls = w.calls ∧
      (SamplePowerState n pMonitor w).world.st = w.st ∧
      (SamplePowerState n pMonitor w).count = 0 ∧
      (SamplePowerState n pMonitor w).world.out = w.out ++ [Line.average (divByInt 0 n)] ∧
      (∀ (x : Int) (rest : List Int) (w0 : World σ),
        sampleSizeLoop (x :: rest) n w0 = sampleSizeLoop rest x
          ((w0.print (Line.text "Error: sample size must be 1 or more.")).print
            (Line.text "Please choose a sample size."))) ∧
      ∀ (env : Env σ) (input : List Int) (w0 : World σ) (r : Int × World σ),
        _tmain env input w0 = some r → (PowerMonitor.new env w0).1.IsInitialized = true →
        (cinInt input).1 = 1 →
        ∃ (m : Int) (w4 : World σ), 1 ≤ m ∧
          r = (0, (SamplePowerState m (PowerMonitor.new env w0).1 w4).world) := by
  have h0 : n.toNat = 0 := Int.toNat_eq_zero.mpr hn
  refine ⟨?_, ?_, ?_, ?_, ?_, ?_⟩
  · simp [SamplePowerState, h0, SamplePowerState_loop, World.print]
  · simp [SamplePowerState, h0, SamplePowerState_loop, World.print]
  · simp [SamplePowerState, h0, SamplePowerState_loop]
  · simp [SamplePowerState, h0, SamplePowerState_loop, World.print]
  · intro x rest w0
    simp only [sampleSizeLoop]
    rw [if_pos (by omega)]
  · exact fun env input w0 r hr hinit hchoice => tmain_sampler env input w0 r hr hinit hchoice

/-- C3 amended, at `n = -1`: no call, average `0 / -1 = 0` written. -/
theorem SamplePowerState_nonpositive_witness :
    (-1 : Int) ≤ 0 ∧
      (SamplePowerState (-1) (PowerMonitor.new (installed (some rampLib)) start).1
        start).world.calls = [] ∧
      (SamplePowerState (-1) (PowerMonitor.new (installed (some rampLib)) start).1
        start).world.out = [] ++ [Line.average (divByInt 0 (-1))] :=
  ⟨by decide,
    (SamplePowerState_nonpositive (-1) (PowerMonitor.new (installed (some rampLib)) start).1
      start (by decide)).1,
    (SamplePowerState_nonpositive (-1) (PowerMonitor.new (installed (some rampLib)) start).1
      start (by decide)).2.2.2.1⟩

/-- The rounding of PowerMonitor.cpp:83-85: when all six entry points are resolved and the
metric read at line 80 (node 0, index `MSR_FUNC_POWER`, whatever its kind) reports the raw
values `(raw, j, m)`, `watts` is set to `round(raw * 10000) / 10000`.  The library state at
the `GetPowerData` call is the one after the calls of lines 71, 75 and 76. -/
theorem sample_rounds_metric_read {σ : Type} (pm : PowerMonitor σ) (watts : ℚ)
    (w : World σ) (raw j m : ℚ)
    (fInit : σ → Int × σ) (fNum : σ → (Int × Int) × σ)
    (fName : Int → σ → (Int × String) × σ) (fFunc : Int → σ → (Int × Int) × σ)
    (fData : Int → Int → σ → (Int × List ℚ) × σ) (fRead : σ → Int × σ)
    (hInit : pm.IntelEnergyLibInitialize = some fInit) (hNum : pm.GetNumMsrs = some fNum)
    (hName : pm.GetMsrName = some fName) (hFunc : pm.GetMsrFunc = some fFunc)
    (hData : pm.GetPowerData = some fData) (hRead : pm.ReadSample = some fRead)
    (hraw : (fData 0 MSR_FUNC_POWER
      (fName MSR_FUNC_POWER (fFunc MSR_FUNC_POWER (fRead w.st).2).2).2).1.2 = [raw, j, m]) :
    (pm.SamplePowerState watts w).1 = (roundHalfAway (raw * 10000) : ℚ) / 10000 ∧
      (raw = 1234567 / 100000 → (pm.SamplePowerState watts w).1 = 123457 / 10000) := by
  have h : (pm.SamplePowerState watts w).1 = round4 raw := by
    rw [sample_resolved pm watts w _ _ _ _ _ _ hInit hNum hName hFunc hData hRead, hraw]
    rfl
  refine ⟨h, fun hr => ?_⟩
  rw [h, hr, round4_noisy]

/-- Over `noisyLib`, whose Power metric is metric 1 and reads 12.34567 W, a sample hands back
12.3457. -/
theorem noisy_sample :
    ((PowerMonitor.new (installed (some noisyLib)) start).1.SamplePowerState 0
      (PowerMonitor.new (installed (some noisyLib)) start).2).1 = 123457 / 10000 :=
  (sample_rounds_metric_read (PowerMonitor.new (installed (some noisyLib)) start).1 0
    (PowerMonitor.new (installed (some noisyLib)) start).2 (1234567 / 100000) 5 7
    (fun s => (1, s)) (fun s => ((1, 2), s))
    (fun iMsr s => ((1, if iMsr = 0 then "Processor" else "Package"), s))
    (fun iMsr s => ((1, if iMsr = 1 then MSR_FUNC_POWER else MSR_FUNC_FREQ), s))
    (fun _ _ s => ((1, [1234567 / 100000, 5, 7]), s)) (fun s => (1, s + 1))
    rfl rfl rfl rfl rfl rfl rfl).2 rfl

/-- C5: the rounding `r(x) = round(x * 10000) / 10000` of both `SamplePowerState` overloads
is idempotent. -/
theorem round4_idempotent (x : ℚ) : round4 (round4 x) = round4 x := by
  unfold round4
  rw [div_mul_cancel₀ _ (by norm_num : (10000 : ℚ) ≠ 0), roundHalfAway_intCast]

/-! ## Failed initialisation -/

theorem allNull_not_allResolved {σ : Type} (pm : PowerMonitor σ) (h : pm.allNull = true) :
    pm.allResolved = false := by
  simp only [PowerMonitor.allNull, Bool.and_eq_true, Option.isNone_iff_eq_none] at h
  simp [PowerMonitor.allResolved, h.2]

theorem new_initFailed_allNull {σ : Type} (env : Env σ) (w : World σ)
    (h : initFailed env w = true) : (PowerMonitor.new env w).1.allNull = true := by
  unfold initFailed at h
  unfold PowerMonitor.new
  split
  · rfl
  · rename_i lib hlib
    simp only [hlib] at h
    split
    · rename_i init readSample hI hR
      simp only [hI, hR, decide_eq_true_eq] at h
      simp only [World.invoke, h, ne_eq, not_true_eq_false, if_false]
      rfl
    · rename_i hnot
      split at h
      · rename_i init r hI hR
        exact absurd hR (hnot init r hI)
      · exact absurd h (by simp)

theorem sampleAll_unresolved {σ : Type} (pm : PowerMonitor σ) (w : World σ)
    (h : pm.allResolved = false) : pm.SamplePowerStateAll w = w := by
  unfold PowerMonitor.SamplePowerStateAll
  split
  · rename_i h1 h2 h3 h4 h5 h6
    simp [PowerMonitor.allResolved, h1, h2, h3, h4, h5, h6] at h
  · rfl

/-- C6, refuted as stated: the function returns nothing, so all it hands its caller is
`watts`, and what a failed call hands back can be what a successful one does: over the
library whose handshake fails and over the library that reads 0 W, a call entered with
`watts = 0` leaves `watts = 0` in both. -/
theorem sample_failure_not_reported :
    ¬ ∀ (failed ready : Env Nat) (w : World Nat) (watts : ℚ),
      initFailed failed w = true → (PowerMonitor.new ready w).1.allResolved = true →
      ((PowerMonitor.new failed w).1.SamplePowerState watts (PowerMonitor.new failed w).2).1 ≠
        ((PowerMonitor.new ready w).1.SamplePowerState watts (PowerMonitor.new ready w).2).1 := by
  intro h
  refine h (installed (some refusingLib)) (installed (some idleLib)) start 0 rfl rfl ?_
  have h1 : ((PowerMonitor.new (installed (some idleLib)) start).1.SamplePowerState 0
      (PowerMonitor.new (installed (some idleLib)) start).2).1 = round4 ((0 : Int) : ℚ) := by
    rw [sample_resolved _ _ _ (fun s => (1, s)) (fun s => ((1, 2), s))
      (fun iMsr s => ((1, if iMsr = 0 then "Processor" else "Package"), s))
      (fun iMsr s => ((1, if iMsr = 1 then MSR_FUNC_POWER else MSR_FUNC_FREQ), s))
      (fun _ _ s => ((1, [0, 0, 0]), s)) (fun s => (1, s + 1))
      rfl rfl rfl rfl rfl rfl]
    simp
  rw [h1, round4_intCast]
  rfl

/-- C6, amended: when the initialisation did not succeed (library not located, or
`IntelEnergyLibInitialize` returned 0), `PowerMonitor::SamplePowerState(watts)` makes no
provider call, leaves the library, the console and the caller's `watts` as they were, and
returns normally: nothing tells its caller that the sample failed. -/
theorem sample_after_failed_init {σ : Type} (env : Env σ) (w : World σ) (watts : ℚ)
    (w1 : World σ) (h : initFailed env w = true) :
    (PowerMonitor.new env w).1.SamplePowerState watts w1 = (watts, w1) :=
  sample_unresolved _ watts w1 (allNull_not_allResolved _ (new_initFailed_allNull env w h))

/-- C6 amended, over the library whose handshake fails, entered with `watts = 42`. -/
theorem sample_after_failed_init_witness :
    initFailed (installed (some refusingLib)) start = true ∧
      (PowerMonitor.new (installed (some refusingLib)) start).1.SamplePowerState 42
        (PowerMonitor.new (installed (some refusingLib)) start).2 =
        (42, (PowerMonitor.new (installed (some refusingLib)) start).2) :=
  ⟨rfl, sample_after_failed_init (installed (some refusingLib)) start 42 _ rfl⟩

/-- C7, the code at the failing input: the library loads and its handshake fails
(`IntelEnergyLibInitialize` returns 0), the constructor nulls the six entry points but leaves
`energyLib` set, so `IsInitialized()` is true; `_tmain`, asked for 2 samples, exits with 0
after the one handshake call and reports an average of 0 W.  Where the library is not located
`IsInitialized()` is false and `_tmain` exits with -1 without a provider call. -/
theorem IsInitialized_after_failed_handshake :
    (initFailed (installed (some refusingLib)) start = true ∧
      (PowerMonitor.new (installed (some refusingLib)) start).1.allNull = true ∧
      (PowerMonitor.new (installed (some refusingLib)) start).1.IsInitialized = true ∧
      (_tmain (installed (some refusingLib)) [1, 2] start).map Prod.fst = some 0 ∧
      (_tmain (installed (some refusingLib)) [1, 2] start).map (fun r => r.2.calls) =
        some [Call.IntelEnergyLibInitialize] ∧
      (_tmain (installed (some refusingLib)) [1, 2] start).map (fun r => r.2.out.getLast?) =
        some (some (Line.average (some 0)))) ∧
    ∀ (env : Env Nat) (input : List Int) (w : World Nat), loadEnergyLib env = none →
      (PowerMonitor.new env w).1.IsInitialized = false ∧
        (_tmain env input w).map Prod.fst = some (-1) ∧
        (_tmain env input w).map (fun r => r.2.calls) = some w.calls := by
  refine ⟨⟨rfl, rfl, rfl, rfl, rfl, ?_⟩, ?_⟩
  · obtain ⟨r, hr⟩ := Option.isSome_iff_exists.mp
      (rfl : (_tmain (installed (some refusingLib)) [1, 2] start).isSome = true)
    obtain ⟨m, w4, hm, hr2⟩ := tmain_sampler _ _ _ _ hr rfl rfl
    rw [hr, hr2, Option.map_some', (SamplePowerState_unresolved m
      (PowerMonitor.new (installed (some refusingLib)) start).1 w4 hm rfl).2.2]
    simp [World.print]
  · intro env input w h
    have hnew : PowerMonitor.new env w = ({}, w) := by
      simp [PowerMonitor.new, h]
    refine ⟨?_, ?_, ?_⟩
    · rw [hnew]; rfl
    · simp only [_tmain, hnew]; rfl
    · simp only [_tmain, hnew]; rfl

/-- C8, refuted as stated: over the library whose handshake fails no sample succeeds (no
`GetPowerData` call is made), yet `SamplePowerState(2, monitor)` counts 2 samples. -/
theorem count_includes_failed_samples :
    ¬ ∀ (n : Int) (pMonitor : PowerMonitor Nat) (w : World Nat), 1 ≤ n →
      (SamplePowerState n pMonitor w).count =
        ((SamplePowerState n pMonitor w).world.calls.count
            (Call.GetPowerData 0 MSR_FUNC_POWER) : Int) -
          w.calls.count (Call.GetPowerData 0 MSR_FUNC_POWER) := by
  intro h
  have h2 := h 2 (PowerMonitor.new (installed (some refusingLib)) start).1
    (PowerMonitor.new (installed (some refusingLib)) start).2 (by decide)
  have hu := SamplePowerState_unresolved 2
    (PowerMonitor.new (installed (some refusingLib)) start).1
    (PowerMonitor.new (installed (some refusingLib)) start).2 (by decide) rfl
  rw [hu.1, hu.2.2] at h2
  exact absurd h2 (by decide)

/-- C8, amended: for every `n ≥ 1` the count is `n`, the number of calls of
`PowerMonitor::SamplePowerState(watts)` made, and the average is the sum of what they handed
back over `n`, whether they succeeded or not.  With all six entry points resolved every call
succeeds, so the count is the number of successful samples; otherwise none succeeds, each
leaves the 0 its `watts` was entered with, and the average reported is 0. -/
theorem SamplePowerState_count {σ : Type} (n : Int) (pMonitor : PowerMonitor σ) (w : World σ)
    (hn : 1 ≤ n) :
    (SamplePowerState n pMonitor w).count = n ∧
      (SamplePowerState n pMonitor w).averageWatts =
        some ((sampledWatts pMonitor n.toNat w).sum / n) ∧
      (pMonitor.allResolved = true →
        ((SamplePowerState n pMonitor w).world.calls.count
            (Call.GetPowerData 0 MSR_FUNC_POWER) : Int) -
          w.calls.count (Call.GetPowerData 0 MSR_FUNC_POWER) = n) ∧
      (pMonitor.allResolved = false →
        ((SamplePowerState n pMonitor w).world.calls.count
            (Call.GetPowerData 0 MSR_FUNC_POWER) : Int) -
          w.calls.count (Call.GetPowerData 0 MSR_FUNC_POWER) = 0 ∧
        (SamplePowerState n pMonitor w).averageWatts = some 0) := by
  have ht : ((n.toNat : Nat) : Int) = n := Int.toNat_of_nonneg (by omega)
  refine ⟨?_, ?_, ?_, ?_⟩
  · simp only [SamplePowerState, loop_counter, ht, zero_add]
  · simp only [SamplePowerState, divByInt, loop_sum, zero_add]
    rw [if_neg (by omega)]
  · intro h
    simp only [SamplePowerState, World.print, loop_reads pMonitor h]
    push_cast
    rw [ht]
    ring
  · intro h
    have hu := SamplePowerState_unresolved n pMonitor w hn h
    rw [hu.2.1, hu.2.2]
    simp [World.print]

/-- C8 amended, over the library whose handshake fails and `n = 2`: count 2, average 0. -/
theorem SamplePowerState_count_witness :
    (1 : Int) ≤ 2 ∧
      (SamplePowerState 2 (PowerMonitor.new (installed (some refusingLib)) start).1
        (PowerMonitor.new (installed (some refusingLib)) start).2).count = 2 ∧
      (SamplePowerState 2 (PowerMonitor.new (installed (some refusingLib)) start).1
        (PowerMonitor.new (installed (some refusingLib)) start).2).averageWatts = some 0 :=
  ⟨by decide,
    (SamplePowerState_count 2 (PowerMonitor.new (installed (some refusingLib)) start).1
      (PowerMonitor.new (installed (some refusingLib)) start).2 (by decide)).1,
    ((SamplePowerState_count 2 (PowerMonitor.new (installed (some refusingLib)) start).1
      (PowerMonitor.new (installed (some refusingLib)) start).2 (by decide)).2.2.2 rfl).2⟩

/-- C9, refuted as stated: a library that lacks `GetMsrName` and exports the rest leaves
five entry points resolved and one null. -/
theorem new_partially_resolved :
    ¬ ∀ (env : Env Nat) (w : World Nat),
      (PowerMonitor.new env w).1.allResolved = true ∨
        (PowerMonitor.new env w).1.allNull = true := by
  intro h
  rcases h (installed (some oldLib)) start with h1 | h1
  · exact Bool.false_ne_true h1
  · exact Bool.false_ne_true h1

/-- C9, amended: after the constructor the six stored entry points are all null when the
library was not located or its handshake returned 0; otherwise each of them is what the
library exports under its name, resolved or null one by one.  A monitor with an entry point
missing is unavailable only at the sampling calls: both `SamplePowerState` overloads return
at once, without a provider call. -/
theorem new_entry_points {σ : Type} (env : Env σ) (w : World σ) :
    (initFailed env w = true → (PowerMonitor.new env w).1.allNull = true) ∧
      (∀ lib : EnergyLib σ, loadEnergyLib env = some lib → initFailed env w = false →
        (PowerMonitor.new env w).1.IntelEnergyLibInitialize = lib.IntelEnergyLibInitialize ∧
        (PowerMonitor.new env w).1.GetNumMsrs = lib.GetNumMsrs ∧
        (PowerMonitor.new env w).1.GetMsrName = lib.GetMsrName ∧
        (PowerMonitor.new env w).1.GetMsrFunc = lib.GetMsrFunc ∧
        (PowerMonitor.new env w).1.GetPowerData = lib.GetPowerData ∧
        (PowerMonitor.new env w).1.ReadSample = lib.ReadSample) ∧
      ((PowerMonitor.new env w).1.allResolved = false →
        ∀ (watts : ℚ) (w1 : World σ),
          (PowerMonitor.new env w).1.SamplePowerState watts w1 = (watts, w1) ∧
            (PowerMonitor.new env w).1.SamplePowerStateAll w1 = w1) := by
  refine ⟨new_initFailed_allNull env w, ?_, fun h watts w1 =>
    ⟨sample_unresolved _ watts w1 h, sampleAll_unresolved _ w1 h⟩⟩
  intro lib hlib hf
  unfold initFailed at hf
  simp only [hlib] at hf
  unfold PowerMonitor.new
  simp only [hlib]
  split
  · rename_i init readSample hI hR
    simp only [hI, hR, decide_eq_false_iff_not] at hf
    simp only [World.invoke, ne_eq, hf, not_false_eq_true, if_true]
    split <;> exact ⟨rfl, rfl, rfl, rfl, rfl, rfl⟩
  · exact ⟨rfl, rfl, rfl, rfl, rfl, rfl⟩

theorem round4_half : round4 (31 / 2) = 31 / 2 := by
  have h : (31 / 2 : ℚ) * 10000 = ((155000 : Int) : ℚ) := by norm_num
  unfold round4
  rw [h, roundHalfAway_intCast]
  norm_num

/-- What `PowerMonitor::SamplePowerState()` prints over `shiftedLib`. -/
theorem shifted_printed :
    ((PowerMonitor.new (installed (some shiftedLib)) start).1.SamplePowerStateAll
        (PowerMonitor.new (installed (some shiftedLib)) start).2).out =
        [Line.powerW "Processor" (31 / 2), Line.energyJ "Processor" 0,
          Line.energyMWh "Processor" 0, Line.temp "Package" 60 100] := by
  have h0 : round4 ((0 : Int) : ℚ) = ((0 : Int) : ℚ) := round4_intCast 0
  simp only [Int.cast_zero] at h0
  have hnew : PowerMonitor.new (installed (some shiftedLib)) start =
      ({ energyLib := some shiftedLib
         IntelEnergyLibInitialize := shiftedLib.IntelEnergyLibInitialize
         GetNumMsrs := shiftedLib.GetNumMsrs
         GetMsrName := shiftedLib.GetMsrName
         GetMsrFunc := shiftedLib.GetMsrFunc
         GetPowerData := shiftedLib.GetPowerData
         ReadSample := shiftedLib.ReadSample
         maxTemperature_ := 100 },
       { st := 1
         calls := [Call.IntelEnergyLibInitialize, Call.GetMaxTemperature 0, Call.ReadSample]
         out := [] }) := rfl
  rw [hnew]
  simp [PowerMonitor.SamplePowerStateAll, shiftedLib, fullLib, World.invoke,
    PowerMonitor.printLoop, PowerMonitor.printMsr, World.print, fillData, MSR_FUNC_POWER,
    MSR_FUNC_TEMP, MSR_FUNC_FREQ, round4_half, h0]

/-- Over `shiftedLib` a sample hands back the 60 of metric 1. -/
theorem shifted_sample :
    ((PowerMonitor.new (installed (some shiftedLib)) start).1.SamplePowerState 0
      (PowerMonitor.new (installed (some shiftedLib)) start).2).1 = 60 := by
  rw [sample_resolved _ _ _ (fun s => (1, s)) (fun s => ((1, 2), s))
    (fun iMsr s => ((1, if iMsr = 0 then "Processor" else "Package"), s))
    (fun iMsr s => ((1, if iMsr = 0 then MSR_FUNC_POWER else MSR_FUNC_TEMP), s))
    (fun _ i s => ((1, if i = 0 then [31 / 2, 0, 0] else [60]), s))
    (fun s => (1, s + 1)) rfl rfl rfl rfl rfl rfl]
  have h : round4 ((60 : Int) : ℚ) = ((60 : Int) : ℚ) := round4_intCast 60
  simpa [MSR_FUNC_POWER] using h

/-- C4, the code at the failing input: over a ready library whose only Power-kind metric is
metric 0, reporting the raw values (15.5, 0, 0) in every state,
`PowerMonitor::SamplePowerState(watts)` sets `watts` to 60, the value of the Temperature
metric at index 1, and not to 15.5 rounded to 4 decimal places, which is 15.5.  The rounding
itself is as claimed on the metric that is read: over a library whose Power metric is metric
1 and reads 12.34567, `watts` is 12.3457. -/
theorem sample_watts_not_the_power_metric :
    (PowerMonitor.new (installed (some shiftedLib)) start).1.allResolved = true ∧
      (∀ (i : Int) (s : Nat),
        shiftedLib.GetMsrFunc.map (fun f => (f i s).1.2) = some MSR_FUNC_POWER ↔ i = 0) ∧
      (∀ s : Nat,
        shiftedLib.GetPowerData.map (fun f => (f 0 0 s).1.2) = some [31 / 2, 0, 0]) ∧
      round4 (31 / 2) = 31 / 2 ∧
      ((PowerMonitor.new (installed (some shiftedLib)) start).1.SamplePowerState 0
        (PowerMonitor.new (installed (some shiftedLib)) start).2).1 = 60 ∧
      ((PowerMonitor.new (installed (some shiftedLib)) start).1.SamplePowerState 0
        (PowerMonitor.new (installed (some shiftedLib)) start).2).1 ≠ round4 (31 / 2) ∧
      ((PowerMonitor.new (installed (some noisyLib)) start).1.SamplePowerState 0
        (PowerMonitor.new (installed (some noisyLib)) start).2).1 = 123457 / 10000 := by
  refine ⟨rfl, ?_, fun _ => rfl, round4_half, shifted_sample, ?_, noisy_sample⟩
  · intro i s
    simp only [shiftedLib, fullLib, Option.map_some', Option.some.injEq, MSR_FUNC_POWER,
      MSR_FUNC_TEMP]
    constructor
    · intro h
      by_contra hi
      rw [if_neg hi] at h
      exact absurd h (by decide)
    · intro h
      rw [if_pos h]
  · rw [shifted_sample, round4_half]
    norm_num

/-- C10, the code at the failing input: over a library whose metric 0 is the Power metric
(15.5 W) and whose metric 1 is the Temperature metric (60 degrees), in every library state,
`PowerMonitor::SamplePowerState(watts)` makes one refresh and passes index `MSR_FUNC_POWER`
= 1 to `GetPowerData`, the kind of which `GetMsrFunc` reports as Temperature, and sets
`watts` to 60.  The overload without a parameter, which tests the kind of every metric,
prints the 15.5 W of metric 0 as the power. -/
theorem sample_reads_index_1_whatever_its_kind :
    (PowerMonitor.new (installed (some shiftedLib)) start).1.allResolved = true ∧
      (∀ s : Nat, shiftedLib.GetMsrFunc.map (fun f => (f 0 s).1.2) = some MSR_FUNC_POWER) ∧
      (∀ s : Nat, shiftedLib.GetMsrFunc.map (fun f => (f 1 s).1.2) = some MSR_FUNC_TEMP) ∧
      ((PowerMonitor.new (installed (some shiftedLib)) start).1.SamplePowerState 0
        (PowerMonitor.new (installed (some shiftedLib)) start).2).2.calls =
        (PowerMonitor.new (installed (some shiftedLib)) start).2.calls ++
          [Call.ReadSample, Call.GetMsrFunc 1, Call.GetMsrName 1, Call.GetPowerData 0 1] ∧
      ((PowerMonitor.new (installed (some shiftedLib)) start).1.SamplePowerState 0
        (PowerMonitor.new (installed (some shiftedLib)) start).2).1 = 60 ∧
      ((PowerMonitor.new (installed (some shiftedLib)) start).1.SamplePowerStateAll
        (PowerMonitor.new (installed (some shiftedLib)) start).2).out =
        [Line.powerW "Processor" (31 / 2), Line.energyJ "Processor" 0,
          Line.energyMWh "Processor" 0, Line.temp "Package" 60 100] := by
  refine ⟨rfl, fun _ => rfl, fun _ => rfl, (sample_calls
    (PowerMonitor.new (installed (some shiftedLib)) start).1 0
    (PowerMonitor.new (installed (some shiftedLib)) start).2 rfl).1, shifted_sample,
    shifted_printed⟩
